import Mathlib

/-!
# FrameProcessorRuntimeManager (android/src/main/cpp)

A shallow embedding of `FrameProcessorRuntimeManager.cpp` and of the part of
`JImageProxyHostObject.h` it uses.

* A C++ call either returns, throws, or has no defined behaviour (a read past
  the argument array, a dereferenced null pointer): type `Outcome`.
* What a call does to the outside world is recorded as a list of `Event`s
  (collaborator lookups, value captures, calls of scripting functions, calls of
  a plugin's native implementation).
* Collaborators whose code is outside the two source files (the Java view
  lookup, reanimated's `ShareableValue`, the scripting engine, the
  `JSIJNIConversion` value adapter, the plugins' native implementations) are the
  fields of `Env`.
-/

namespace vision

/-! ## Values -/

/-- A native frame: the Java `ImageProxy` behind a `jni::local_ref`. -/
structure JImageProxy where
  ref : Nat
deriving DecidableEq, Repr

/-- A JNI object reference (`jobject`), the native side of the value adapter. -/
structure JObject where
  handle : Nat
deriving DecidableEq, Repr

/-- A scripting function (`jsi::Function`), identified by its reference. -/
structure JsiFunction where
  id : Nat
deriving DecidableEq, Repr

/-- The `jsi::HostObject`s a runtime can hold: `JImageProxyHostObject`, with its
public member `frame`, or a host object of some other class. -/
inductive HostObject where
  | imageProxy (frame : JImageProxy)
  | other (tag : Nat)
deriving DecidableEq, Repr

/-- A `jsi::Object`: a plain object, a function, or a host object. -/
inductive JsiObject where
  | plain (id : Nat)
  | function (f : JsiFunction)
  | hostObject (h : HostObject)
deriving DecidableEq, Repr

/-- A scripting number, a `double`: a finite value, an infinity, or a NaN. The
finite values are taken from the rationals, of which the doubles are a part. -/
inductive JsNumber where
  | finite (q : ℚ)
  | infinite (negative : Bool)
  | nan
deriving DecidableEq, Repr

/-- The C++ cast `(int) d` of a `double`: the value truncated toward zero when
that fits an `int` (32 bits), and no defined behaviour (`none`) otherwise, which
includes the infinities and NaN. -/
def castToInt : JsNumber → Option Int
  | .finite q =>
    let t := q.num.tdiv q.den
    if -2147483648 ≤ t ∧ t ≤ 2147483647 then some t else none
  | _ => none

/-- A `jsi::Value`. -/
inductive JsiValue where
  | undefined
  | null
  | bool (b : Bool)
  | number (d : JsNumber)
  | string (s : String)
  | object (o : JsiObject)
deriving DecidableEq, Repr

/-- Something thrown by a C++ call. -/
inductive Thrown where
  /-- A `jsi::JSError` with this message: a `throw jsi::JSError(runtime,
  message)` of this file, or an error raised by scripting code. -/
  | jsError (message : String)
  /-- The `jsi::JSError` of one of jsi's checked casts (`asObject`,
  `asFunction`, `asHostObject`); `expected` is the kind the cast demands. -/
  | jsiTypeError (expected : String)
  /-- A `throw std::runtime_error(message)`. -/
  | runtimeError (message : String)
  /-- An error raised by a collaborator (a pending Java exception rethrown by
  fbjni, a failure of the value adapter, ...). -/
  | collaborator (message : String)
deriving DecidableEq, Repr

/-- The ways a C++ call ends. -/
inductive Outcome (α : Type) where
  | returned (a : α)
  | threw (e : Thrown)
  /-- No defined behaviour: an out-of-bounds read or a null dereference. -/
  | undefinedBehaviour
deriving DecidableEq, Repr

/-- A view of the Java side (`CameraView*`), identified by its reference. -/
structure CameraViewRef where
  id : Nat
deriving DecidableEq, Repr

/-- A registered plugin (`FrameProcessorPlugin`): `getName()` and a reference
that tells its native implementation apart. -/
structure FrameProcessorPlugin where
  name : String
  impl : Nat
deriving DecidableEq, Repr

/-- What the Java method `findCameraViewById` hands back to the C++ caller. The
method is not among the sources; the spec gives the collaborator as
`findSourceById(id) -> SourceHandle | NotFound`. Its JNI signature returns a
reference, so it can hand back a view or the null reference, and like every
call through fbjni it can end with a pending Java exception, which fbjni
rethrows. -/
inductive LookupResult where
  | found (view : CameraViewRef)
  | null
  | threw (e : Thrown)
deriving DecidableEq, Repr

/-- The observable actions of the code. -/
inductive Event where
  /-- The Java method `findCameraViewById` was called with this `jint`. -/
  | findCameraViewById (viewId : Int)
  /-- `ShareableValue::adapt` captured this value. -/
  | adapt (value : JsiValue)
  /-- `function->call(rt, args...)`. -/
  | call (function : JsiFunction) (args : List JsiValue)
  /-- `pluginCxx->callback(frame, params)`. -/
  | nativeCallback (plugin : FrameProcessorPlugin) (frame : JImageProxy)
      (params : List (Option JObject))
  /-- `Scheduler.reportError(err)` of the spec (section 6). Nothing in the two
  source files performs it; it occurs in the frame-delivery path modelled from
  the spec only. -/
  | reportError (e : Thrown)
deriving DecidableEq, Repr

/-- The collaborators of the file. -/
structure Env where
  /-- The Java method `findCameraViewById` of the manager's Java part. -/
  findCameraViewByIdJava : Int → LookupResult
  /-- `ShareableValue::adapt(runtime, value, manager)->getValue(rt)`: the value
  captured in the calling runtime, materialised in the frame-processor runtime. -/
  getValue : JsiValue → JsiValue
  /-- `jsi::Function::call`: running a scripting function. -/
  call : JsiFunction → List JsiValue → Except Thrown JsiValue
  /-- `JSIJNIConversion::convertJSIValueToJNIObject`. -/
  convertJSIValueToJNIObject : JsiValue → Except Thrown JObject
  /-- `JSIJNIConversion::convertJNIObjectToJSIValue`. -/
  convertJNIObjectToJSIValue : JObject → Except Thrown JsiValue
  /-- `FrameProcessorPlugin::callback`, the plugin's native implementation. -/
  pluginCallback : FrameProcessorPlugin → JImageProxy → List (Option JObject) →
    Except Thrown JObject
  /-- `makeJSIRuntime()` followed by `RuntimeDecorator::decorateRuntime(*runtime,
  "FRAME_PROCESSOR")` gives a runtime with these globals defined. -/
  decoratedGlobals : String → Option JsiValue

/-! ## jsi's checked casts -/

/-- The cast `jsi::Value::asObject`: throws unless the value is an object. -/
def asObject : JsiValue → Except Thrown JsiObject
  | .object o => .ok o
  | _ => .error (.jsiTypeError "object")

/-- The cast `jsi::Object::asFunction`: throws unless the object is a function. -/
def asFunction : JsiObject → Except Thrown JsiFunction
  | .function f => .ok f
  | _ => .error (.jsiTypeError "function")

/-- The cast `jsi::Object::asHostObject`: throws unless the object is a host
object. -/
def asHostObject : JsiObject → Except Thrown HostObject
  | .hostObject h => .ok h
  | _ => .error (.jsiTypeError "HostObject")

/-- The cast `dynamic_cast<JImageProxyHostObject*>`: the null pointer (`none`)
for a host object of another class. -/
def dynamicCastJImageProxyHostObject : HostObject → Option JImageProxy
  | .imageProxy frame => some frame
  | .other _ => none

/-- The test `jsi::Value::isNumber`. -/
def JsiValue.isNumber : JsiValue → Bool
  | .number _ => true
  | _ => false

/-- The test `jsi::Value::isObject`. -/
def JsiValue.isObject : JsiValue → Bool
  | .object _ => true
  | _ => false

/-! ## The result of a call: what it did and how it ended -/

/-- The events of a call and its outcome. -/
structure CallResult (α : Type) where
  events : List Event
  outcome : Outcome α
deriving DecidableEq, Repr

/-! ## registerPlugin: the callback lambda (lines 204-224) -/

/-- The loop `for (size_t i = 1; i < paramsCount; i++)
params->setElement(i, convertJSIValueToJNIObject(runtime, arguments[i]))`,
started at index `i` with `steps` iterations left. `none`: the read of
`arguments[i]` is past the end of the array. -/
def parseParams (env : Env) (arguments : List JsiValue) :
    (steps : Nat) → (i : Nat) → List (Option JObject) →
      Option (Except Thrown (List (Option JObject)))
  | 0, _, params => some (.ok params)
  | steps + 1, i, params =>
    match arguments.get? i with
    | none => none
    | some v =>
      match env.convertJSIValueToJNIObject v with
      | .error e => some (.error e)
      | .ok o => parseParams env arguments steps (i + 1) (params.set i (some o))

/-- The host function installed for a plugin, called with `arguments`
(`count = arguments.length`). -/
def callback (env : Env) (pluginCxx : FrameProcessorPlugin)
    (arguments : List JsiValue) : CallResult JsiValue :=
  -- arguments[0]
  match arguments.get? 0 with
  | none => ⟨[], .undefinedBehaviour⟩
  | some a0 =>
    -- .asObject(runtime).asHostObject(runtime)
    match asObject a0 with
    | .error e => ⟨[], .threw e⟩
    | .ok obj =>
      match asHostObject obj with
      | .error e => ⟨[], .threw e⟩
      | .ok boxedHostObject =>
        let frameHostObject := dynamicCastJImageProxyHostObject boxedHostObject
        -- count >= 1 here, so the size_t subtraction does not wrap
        let paramsCount := arguments.length - 1
        -- JArrayClass<jobject>::newArray: every element is null
        let params := List.replicate paramsCount (none : Option JObject)
        -- i runs from 1 while i < paramsCount: paramsCount - 1 iterations
        match parseParams env arguments (paramsCount - 1) 1 params with
        | none => ⟨[], .undefinedBehaviour⟩
        | some (.error e) => ⟨[], .threw e⟩
        | some (.ok params) =>
          -- frameHostObject->frame
          match frameHostObject with
          | none => ⟨[], .undefinedBehaviour⟩
          | some frame =>
            match env.pluginCallback pluginCxx frame params with
            | .error e => ⟨[.nativeCallback pluginCxx frame params], .threw e⟩
            | .ok result =>
              match env.convertJNIObjectToJSIValue result with
              | .error e => ⟨[.nativeCallback pluginCxx frame params], .threw e⟩
              | .ok v => ⟨[.nativeCallback pluginCxx frame params], .returned v⟩

/-! ## Runtimes and the manager's state -/

/-- The host functions this file creates with `createFromHostFunction`. -/
inductive HostFunction where
  | setFrameProcessor
  | unsetFrameProcessor
  | pluginCallback (plugin : FrameProcessorPlugin)
deriving DecidableEq, Repr

/-- A property of a runtime's global object: a plain value, or a host function
created with a name and a parameter count. -/
inductive Global where
  | value (v : JsiValue)
  | hostFunction (name : String) (paramCount : Nat) (body : HostFunction)
deriving DecidableEq, Repr

/-- A `jsi::Runtime`, as far as this file touches it: its global object, and
which runtime it is (`id`, ghost state standing for the object's identity, by
which a captured reference `&rt` is told live from dangling). -/
structure Runtime where
  id : Nat
  global : String → Option Global

/-- The call `runtime.global().setProperty(runtime, name, value)`. -/
def Runtime.setProperty (rt : Runtime) (name : String) (g : Global) : Runtime :=
  { rt with global := Function.update rt.global name (some g) }

/-- The scheduler handed to `initHybrid`. -/
structure Scheduler where
  id : Nat
deriving DecidableEq, Repr

/-- The manager `reanimated::RuntimeManager`: the frame-processor runtime, the
scheduler its error handler is bound to, and its scheduler. -/
structure RuntimeManager where
  runtime : Option Runtime
  errorHandler : Scheduler
  scheduler : Scheduler

/-- The lambda handed to `CameraView::setFrameProcessor` (lines 132-138) with
its captures `[&rt, function]`: `rt` is the identity of the runtime it holds a
reference to. -/
structure FrameProcessor where
  rt : Nat
  function : JsiFunction
deriving DecidableEq, Repr

/-- Modelled from the spec: `CameraView.h` is not among the sources. A view
holds the callback slot of section 3 ("zero-or-one function value";
overwritten by a set, cleared by an unset). -/
structure CameraView where
  frameProcessor_ : Option FrameProcessor
deriving DecidableEq, Repr

/-- Modelled from the spec: `CameraView::setFrameProcessor` is not among the
sources; it installs the function "into the CallbackSlot ..., replacing any
previous entry". -/
def CameraView.setFrameProcessor (_view : CameraView) (fp : FrameProcessor) : CameraView :=
  ⟨some fp⟩

/-- Modelled from the spec: `CameraView::unsetFrameProcessor` is not among the
sources; it "clears its slot". -/
def CameraView.unsetFrameProcessor (_view : CameraView) : CameraView :=
  ⟨none⟩

/-- The members of `FrameProcessorRuntimeManager`, and the number of runtimes
`makeJSIRuntime()` has created so far (ghost state: it names the next one). -/
structure FrameProcessorRuntimeManager where
  runtime_ : Option Runtime
  scheduler_ : Scheduler
  _runtimeManager : Option RuntimeManager
  runtimesCreated : Nat

/-- The manager together with the views of the Java side. -/
structure World where
  manager : FrameProcessorRuntimeManager
  cameraViews : CameraViewRef → CameraView

/-- The events of a call, its outcome, and the world it leaves. -/
structure Step (α : Type) where
  events : List Event
  outcome : Outcome α
  world : World

/-- The frame-processor runtime when the guard
`!_runtimeManager || !_runtimeManager->runtime` is false, `none` when the guard
is true. -/
def FrameProcessorRuntimeManager.initializedRuntime
    (m : FrameProcessorRuntimeManager) : Option Runtime :=
  match m._runtimeManager with
  | none => none
  | some rm => rm.runtime

/-- The function `initializeRuntime` (lines 56-74). Assigning
`_runtimeManager` destroys the runtime manager held before, and its runtime
with it. -/
def initializeRuntime (env : Env) (m : FrameProcessorRuntimeManager) :
    FrameProcessorRuntimeManager :=
  -- create JSI runtime and decorate it
  let runtime : Runtime :=
    ⟨m.runtimesCreated, fun name => (env.decoratedGlobals name).map Global.value⟩
  let runtime := runtime.setProperty "_FRAME_PROCESSOR" (.value (.bool true))
  -- create REA runtime manager
  let errorHandler := m.scheduler_
  { m with
    _runtimeManager := some ⟨some runtime, errorHandler, m.scheduler_⟩
    runtimesCreated := m.runtimesCreated + 1 }

/-- The function `findCameraViewById` (lines 76-80): calls the Java method and
dereferences what it returns with `result->cthis()`. -/
def findCameraViewById (env : Env) (viewId : Int) : Outcome CameraViewRef :=
  match env.findCameraViewByIdJava viewId with
  | .found view => .returned view
  | .null => .undefinedBehaviour
  | .threw e => .threw e

/-- The body of the frame-processor lambda (lines 132-138), called with `frame`
in the world `w`: `function->call(rt, createFromHostObject(rt, hostObject))`.
The lambda reaches the runtime through the reference it captured: when the
manager no longer holds that runtime, the reference dangles. The lambda has no
`try`, so what the call throws leaves the lambda. -/
def FrameProcessor.invoke (env : Env) (w : World) (fp : FrameProcessor)
    (frame : JImageProxy) : Step Unit :=
  match w.manager.initializedRuntime with
  | none => ⟨[], .undefinedBehaviour, w⟩
  | some rt =>
    if rt.id = fp.rt then
      -- create HostObject which holds the Frame (JImageProxy)
      let hostObject := HostObject.imageProxy frame
      let args := [JsiValue.object (.hostObject hostObject)]
      match env.call fp.function args with
      | .error e => ⟨[.call fp.function args], .threw e, w⟩
      | .ok _ => ⟨[.call fp.function args], .returned (), w⟩
    else ⟨[], .undefinedBehaviour, w⟩

/-- The lambda `setFrameProcessor` (lines 94-143), called with `arguments`. -/
def setFrameProcessor (env : Env) (w : World) (arguments : List JsiValue) :
    Step JsiValue :=
  match arguments.get? 0 with
  | none => ⟨[], .undefinedBehaviour, w⟩
  | some a0 =>
    if !a0.isNumber then
      ⟨[], .threw (.jsError
        "Camera::setFrameProcessor: First argument ('viewTag') must be a number!"), w⟩
    else
    match arguments.get? 1 with
    | none => ⟨[], .undefinedBehaviour, w⟩
    | some a1 =>
      if !a1.isObject then
        ⟨[], .threw (.jsError
          "Camera::setFrameProcessor: Second argument ('frameProcessor') must be a function!"), w⟩
      else
      match w.manager.initializedRuntime with
      | none =>
        ⟨[], .threw (.jsError
          "Camera::setFrameProcessor: The RuntimeManager is not yet initialized!"), w⟩
      | some rt =>
        -- find camera view: arguments[0].asNumber(), then the cast (int) viewTag
        match a0 with
        | .number viewTag =>
          match castToInt viewTag with
          | none => ⟨[], .undefinedBehaviour, w⟩
          | some viewId =>
            match findCameraViewById env viewId with
            | .undefinedBehaviour => ⟨[.findCameraViewById viewId], .undefinedBehaviour, w⟩
            | .threw e => ⟨[.findCameraViewById viewId], .threw e, w⟩
            | .returned cameraView =>
              -- convert jsi::Function to a ShareableValue, cast worklet to a jsi::Function
              match (asObject (env.getValue a1)).bind asFunction with
              | .error e => ⟨[.findCameraViewById viewId, .adapt a1], .threw e, w⟩
              | .ok function =>
                -- assign lambda to frame processor
                ⟨[.findCameraViewById viewId, .adapt a1], .returned .undefined,
                  { w with cameraViews := (Function.update w.cameraViews cameraView
                      ((w.cameraViews cameraView).setFrameProcessor ⟨rt.id, function⟩)) }⟩
        | _ => ⟨[], .threw (.jsiTypeError "number"), w⟩

/-- The lambda `unsetFrameProcessor` (lines 154-174), called with `arguments`. -/
def unsetFrameProcessor (env : Env) (w : World) (arguments : List JsiValue) :
    Step JsiValue :=
  match arguments.get? 0 with
  | none => ⟨[], .undefinedBehaviour, w⟩
  | some a0 =>
    match a0 with
    | .number viewTag =>
      -- find camera view: arguments[0].asNumber(), then the cast (int) viewTag
      match castToInt viewTag with
      | none => ⟨[], .undefinedBehaviour, w⟩
      | some viewId =>
        match findCameraViewById env viewId with
        | .undefinedBehaviour => ⟨[.findCameraViewById viewId], .undefinedBehaviour, w⟩
        | .threw e => ⟨[.findCameraViewById viewId], .threw e, w⟩
        | .returned cameraView =>
          ⟨[.findCameraViewById viewId], .returned .undefined,
            { w with cameraViews := (Function.update w.cameraViews cameraView
                (w.cameraViews cameraView).unsetFrameProcessor) }⟩
    | _ =>
      ⟨[], .threw (.jsError
        "Camera::unsetFrameProcessor: First argument ('viewTag') must be a number!"), w⟩

/-- The function `installJSIBindings` (lines 83-185). -/
def installJSIBindings (m : FrameProcessorRuntimeManager) : FrameProcessorRuntimeManager :=
  match m.runtime_ with
  | none => m
  | some jsiRuntime =>
    let jsiRuntime := jsiRuntime.setProperty "setFrameProcessor"
      (.hostFunction "setFrameProcessor" 2 .setFrameProcessor)
    let jsiRuntime := jsiRuntime.setProperty "unsetFrameProcessor"
      (.hostFunction "unsetFrameProcessor" 1 .unsetFrameProcessor)
    { m with runtime_ := some jsiRuntime }

/-- The function `registerPlugin` (lines 187-230). -/
def registerPlugin (w : World) (plugin : FrameProcessorPlugin) : Step Unit :=
  match w.manager._runtimeManager with
  | none =>
    ⟨[], .threw (.runtimeError
      "Tried to register plugin before initializing JS runtime! Call `initializeRuntime()` first."), w⟩
  | some rm =>
    match rm.runtime with
    | none =>
      ⟨[], .threw (.runtimeError
        "Tried to register plugin before initializing JS runtime! Call `initializeRuntime()` first."), w⟩
    | some runtime =>
      -- name is always prefixed with two underscores (__)
      let name := "__" ++ plugin.name
      let runtime := runtime.setProperty name (.hostFunction name 1 (.pluginCallback plugin))
      ⟨[], .returned (),
        { w with manager :=
            { w.manager with _runtimeManager := some { rm with runtime := some runtime } } }⟩

/-- Modelled from the spec: the frame-delivery path of `CameraView` is not among
the sources. Section 5: "the delivery thread looks up the CallbackSlot for the
source and, if non-empty, hands off invocation to the secondary runtime's thread
via the scheduler"; with an empty slot nothing is invoked. Section 7: an error
raised inside the callback is "forwarded to the scheduler's error reporter
rather than propagated synchronously", so the delivery itself returns. The
events are those of the handed-off invocation, then the report if there is one.
The release of frames is not part of this model. -/
def deliverFrame (env : Env) (w : World) (view : CameraViewRef) (frame : JImageProxy) :
    Step Unit :=
  match (w.cameraViews view).frameProcessor_ with
  | none => ⟨[], .returned (), w⟩
  | some fp =>
    match (fp.invoke env w frame).outcome with
    | .returned _ =>
      ⟨(fp.invoke env w frame).events, .returned (), (fp.invoke env w frame).world⟩
    | .threw e =>
      ⟨(fp.invoke env w frame).events ++ [.reportError e], .returned (),
        (fp.invoke env w frame).world⟩
    | .undefinedBehaviour =>
      ⟨(fp.invoke env w frame).events, .undefinedBehaviour, (fp.invoke env w frame).world⟩

/-! ## A concrete environment and concrete worlds -/

/-- A sample environment: view 1 exists, the lookup of view 2 raises, every
other lookup gives a null reference; function 0 raises when run; the value
adapter converts numbers only. -/
def sampleEnv : Env where
  findCameraViewByIdJava := fun viewId =>
    if viewId = 1 then .found ⟨1⟩
    else if viewId = 2 then .threw (.collaborator "ViewNotFoundError")
    else .null
  getValue := fun v => v
  call := fun f _ => if f.id = 0 then .error (.jsError "boom") else .ok .undefined
  convertJSIValueToJNIObject := fun v =>
    match v with
    | .number (.finite q) => .ok ⟨q.num.toNat⟩
    | _ => .error (.collaborator "unsupported value")
  convertJNIObjectToJSIValue := fun o => .ok (.number (.finite (Rat.ofInt o.handle)))
  pluginCallback := fun _ _ params => .ok ⟨params.length⟩
  decoratedGlobals := fun _ => none

/-- A manager fresh from `initHybrid`: no primary runtime bound, nothing
initialized. -/
def freshManager : FrameProcessorRuntimeManager :=
  ⟨none, ⟨0⟩, none, 0⟩

/-- A world whose manager has not run `initializeRuntime`; every slot empty. -/
def freshWorld : World :=
  ⟨freshManager, fun _ => ⟨none⟩⟩

/-- The world `freshWorld` after `initializeRuntime`. -/
def initializedWorld : World :=
  ⟨initializeRuntime sampleEnv freshManager, fun _ => ⟨none⟩⟩

/-- A sample plugin. -/
def samplePlugin : FrameProcessorPlugin :=
  ⟨"scanQRCodes", 0⟩

/-- The frame handle object of a frame, as a scripting value. -/
def frameValue (frame : JImageProxy) : JsiValue :=
  .object (.hostObject (.imageProxy frame))

/-! ## Helper lemmas -/

/-- The lambda `setFrameProcessor` on a number and an object, past the two
argument checks. -/
theorem setFrameProcessor_number_object (env : Env) (w : World) (viewTag : JsNumber)
    (o : JsiObject) (rest : List JsiValue) :
    setFrameProcessor env w (.number viewTag :: .object o :: rest) =
      match w.manager.initializedRuntime with
      | none =>
        ⟨[], .threw (.jsError
          "Camera::setFrameProcessor: The RuntimeManager is not yet initialized!"), w⟩
      | some rt =>
        match castToInt viewTag with
        | none => ⟨[], .undefinedBehaviour, w⟩
        | some viewId =>
          match findCameraViewById env viewId with
          | .undefinedBehaviour => ⟨[.findCameraViewById viewId], .undefinedBehaviour, w⟩
          | .threw e => ⟨[.findCameraViewById viewId], .threw e, w⟩
          | .returned cameraView =>
            match (asObject (env.getValue (.object o))).bind asFunction with
            | .error e => ⟨[.findCameraViewById viewId, .adapt (.object o)], .threw e, w⟩
            | .ok function =>
              ⟨[.findCameraViewById viewId, .adapt (.object o)], .returned .undefined,
                { w with cameraViews := (Function.update w.cameraViews cameraView
                    ((w.cameraViews cameraView).setFrameProcessor ⟨rt.id, function⟩)) }⟩ := by
  simp [setFrameProcessor, JsiValue.isNumber, JsiValue.isObject]

/-- The casts `asObject` then `asFunction` succeed exactly on function objects. -/
theorem asObject_bind_asFunction_ok (v : JsiValue) (function : JsiFunction) :
    (asObject v).bind asFunction = .ok function ↔ v = .object (.function function) := by
  cases v with
  | object o =>
    cases o <;> simp [asObject, asFunction, Except.bind]
  | _ => simp [asObject, Except.bind]

/-- A `setFrameProcessor(viewTag, fn)` that returns, for a tag whose cast is
`viewId` and a lookup that finds `cameraView`: the runtime is initialized, `fn`
materialises as a function, and the world differs from the one before in the
slot of `cameraView` alone, which now holds the lambda for that function. -/
theorem setFrameProcessor_returned (env : Env) (w : World) (viewTag : JsNumber)
    (viewId : Int) (fn : JsiFunction) (cameraView : CameraViewRef)
    (hcast : castToInt viewTag = some viewId)
    (hfind : env.findCameraViewByIdJava viewId = .found cameraView)
    (hsucc : (setFrameProcessor env w [.number viewTag, .object (.function fn)]).outcome
      = .returned .undefined) :
    ∃ (rt : Runtime) (function : JsiFunction),
      w.manager.initializedRuntime = some rt ∧
      env.getValue (.object (.function fn)) = .object (.function function) ∧
      (setFrameProcessor env w [.number viewTag, .object (.function fn)]).world =
        { w with cameraViews := (Function.update w.cameraViews cameraView
            ⟨some ⟨rt.id, function⟩⟩) } := by
  rw [setFrameProcessor_number_object] at hsucc ⊢
  cases hrt : w.manager.initializedRuntime with
  | none => simp [hrt] at hsucc
  | some rt =>
    have hview : findCameraViewById env viewId = .returned cameraView := by
      simp [findCameraViewById, hfind]
    simp only [hrt, hcast, hview] at hsucc ⊢
    cases hfun : (asObject (env.getValue (.object (.function fn)))).bind asFunction with
    | error e => simp [hfun] at hsucc
    | ok function =>
      exact ⟨rt, function, rfl, (asObject_bind_asFunction_ok _ _).1 hfun, rfl⟩

/-- The lambda called while the manager holds the runtime the lambda captured. -/
theorem invoke_live (env : Env) (w : World) (fp : FrameProcessor) (frame : JImageProxy)
    (rt : Runtime) (hrt : w.manager.initializedRuntime = some rt) (hid : rt.id = fp.rt) :
    fp.invoke env w frame =
      match env.call fp.function [.object (.hostObject (.imageProxy frame))] with
      | .error e =>
        ⟨[.call fp.function [.object (.hostObject (.imageProxy frame))]], .threw e, w⟩
      | .ok _ =>
        ⟨[.call fp.function [.object (.hostObject (.imageProxy frame))]], .returned (), w⟩ := by
  simp [FrameProcessor.invoke, hrt, hid]

/-! ## Theorems -/

/-- C1: for a view tag whose `(int)` cast is `viewId` and a lookup that finds the
view, when `setFrameProcessor(viewTag, fn)` returns, whatever the slot of the
view held before, the slot holds the lambda for the materialisation of `fn`, and
delivering a frame to the view performs exactly one call: that function, with
the frame's host object as its only argument. The only event besides it is the
report of the error the call raised, if it raised one. -/
theorem setFrameProcessor_then_deliverFrame (env : Env) (w : World) (viewTag : JsNumber)
    (viewId : Int) (fn : JsiFunction) (cameraView : CameraViewRef)
    (hcast : castToInt viewTag = some viewId)
    (hfind : env.findCameraViewByIdJava viewId = .found cameraView)
    (hsucc : (setFrameProcessor env w [.number viewTag, .object (.function fn)]).outcome
      = .returned .undefined) :
    ∃ function : JsiFunction,
      env.getValue (.object (.function fn)) = .object (.function function) ∧
      (∃ rt : Nat,
        ((setFrameProcessor env w
            [.number viewTag, .object (.function fn)]).world.cameraViews cameraView).frameProcessor_
          = some ⟨rt, function⟩) ∧
      ∀ frame : JImageProxy,
        (deliverFrame env (setFrameProcessor env w
            [.number viewTag, .object (.function fn)]).world cameraView frame).events
          = .call function [frameValue frame] ::
              (match env.call function [frameValue frame] with
               | .error e => [.reportError e]
               | .ok _ => []) := by
  obtain ⟨rt, function, hrt, hmat, hworld⟩ :=
    setFrameProcessor_returned env w viewTag viewId fn cameraView hcast hfind hsucc
  rw [hworld]
  refine ⟨function, hmat, ⟨rt.id, by simp⟩, ?_⟩
  intro frame
  have hinv := invoke_live env
    { w with cameraViews := (Function.update w.cameraViews cameraView
        ⟨some ⟨rt.id, function⟩⟩) } ⟨rt.id, function⟩ frame rt hrt rfl
  simp only [deliverFrame, Function.update_same, hinv, frameValue]
  cases env.call function [.object (.hostObject (.imageProxy frame))] <;> rfl

/-- C1, at a concrete input: view 1 exists, its slot is set to function 7, and a
delivered frame 5 is handed to function 7 once. -/
theorem setFrameProcessor_then_deliverFrame_witness :
    ∃ function : JsiFunction,
      sampleEnv.getValue (.object (.function ⟨7⟩)) = .object (.function function) ∧
      (∃ rt : Nat,
        ((setFrameProcessor sampleEnv initializedWorld
            [.number (.finite 1), .object (.function ⟨7⟩)]).world.cameraViews ⟨1⟩).frameProcessor_
          = some ⟨rt, function⟩) ∧
      ∀ frame : JImageProxy,
        (deliverFrame sampleEnv (setFrameProcessor sampleEnv initializedWorld
            [.number (.finite 1), .object (.function ⟨7⟩)]).world ⟨1⟩ frame).events
          = .call function [frameValue frame] ::
              (match sampleEnv.call function [frameValue frame] with
               | .error e => [.reportError e]
               | .ok _ => []) :=
  setFrameProcessor_then_deliverFrame sampleEnv initializedWorld (.finite 1) 1 ⟨7⟩ ⟨1⟩
    (by decide) rfl (by decide)

/-- C2 (the code at the failing input): a plugin called with a frame and the
three numbers 10, 20, 30 hands its native implementation the sequence
`[null, 10, 20]`: element 0 is never written, element `j` holds argument `j`
(not `j + 1`), and the last argument is dropped. -/
theorem callback_params_shifted :
    callback sampleEnv samplePlugin
        [frameValue ⟨9⟩, .number (.finite 10), .number (.finite 20), .number (.finite 30)] =
      ⟨[.nativeCallback samplePlugin ⟨9⟩ [none, some ⟨10⟩, some ⟨20⟩]],
        .returned (.number (.finite 3))⟩ := by
  decide

/-- C3 (the code at the failing input): `setFrameProcessor(1, obj)` with `obj` a
plain object, on an initialized runtime, looks up view 1 and captures `obj`
before it fails, and the error is the one of the cast `asFunction`, not the
one naming `frameProcessor`. -/
theorem setFrameProcessor_plain_object :
    (setFrameProcessor sampleEnv initializedWorld
        [.number (.finite 1), .object (.plain 0)]).events
      = [.findCameraViewById 1, .adapt (.object (.plain 0))] ∧
    (setFrameProcessor sampleEnv initializedWorld
        [.number (.finite 1), .object (.plain 0)]).outcome
      = .threw (.jsiTypeError "function") := by
  constructor <;> decide

/-- C4: on a manager whose runtime manager or runtime is absent,
`setFrameProcessor(viewTag, fn)` throws the "not yet initialized" error with no
lookup, no capture, and the world unchanged. -/
theorem setFrameProcessor_uninitialized (env : Env) (w : World) (viewTag : JsNumber)
    (fn : JsiFunction) (hinit : w.manager.initializedRuntime = none) :
    setFrameProcessor env w [.number viewTag, .object (.function fn)] =
      ⟨[], .threw (.jsError
        "Camera::setFrameProcessor: The RuntimeManager is not yet initialized!"), w⟩ := by
  rw [setFrameProcessor_number_object, hinit]

/-- C4, at a concrete input: the fresh world. -/
theorem setFrameProcessor_uninitialized_witness :
    setFrameProcessor sampleEnv freshWorld [.number (.finite 1), .object (.function ⟨7⟩)] =
      ⟨[], .threw (.jsError
        "Camera::setFrameProcessor: The RuntimeManager is not yet initialized!"), freshWorld⟩ :=
  setFrameProcessor_uninitialized sampleEnv freshWorld (.finite 1) ⟨7⟩ rfl

/-- C6 (the code at the failing input): a plugin called with a host object of
another class as argument 0 passes both checked casts, gets a null pointer from
`dynamic_cast`, and dereferences it: no type error is thrown. -/
theorem callback_other_host_object (env : Env) (plugin : FrameProcessorPlugin) (tag : Nat) :
    callback env plugin [.object (.hostObject (.other tag))] =
      ⟨[], .undefinedBehaviour⟩ := by
  simp [callback, asObject, asHostObject, dynamicCastJImageProxyHostObject, parseParams]

/-- C7 (the code at the failing input): a plugin called with a frame and one
string, which the value adapter rejects, does not convert the string at all; it
calls the native implementation with `[null]` and returns. -/
theorem callback_skips_last_argument :
    sampleEnv.convertJSIValueToJNIObject (.string "x")
      = .error (.collaborator "unsupported value") ∧
    callback sampleEnv samplePlugin [frameValue ⟨9⟩, .string "x"] =
      ⟨[.nativeCallback samplePlugin ⟨9⟩ [none]], .returned (.number (.finite 1))⟩ :=
  ⟨rfl, by decide⟩

/-- C9: `registerPlugin` on a manager whose runtime manager or runtime is absent
throws the ordering error and leaves the world unchanged; on an initialized
manager it returns, and the frame-processor runtime then has the global
`"__" ++ name`, a host function of one parameter running the plugin's callback. -/
theorem registerPlugin_ordering (w : World) (plugin : FrameProcessorPlugin) :
    (w.manager.initializedRuntime = none →
      registerPlugin w plugin =
        ⟨[], .threw (.runtimeError
          "Tried to register plugin before initializing JS runtime! Call `initializeRuntime()` first."),
          w⟩) ∧
    (w.manager.initializedRuntime.isSome = true →
      (registerPlugin w plugin).outcome = .returned () ∧
      ∃ runtime : Runtime,
        (registerPlugin w plugin).world.manager.initializedRuntime = some runtime ∧
        runtime.global ("__" ++ plugin.name)
          = some (.hostFunction ("__" ++ plugin.name) 1 (.pluginCallback plugin))) := by
  unfold FrameProcessorRuntimeManager.initializedRuntime registerPlugin
  cases hrm : w.manager._runtimeManager with
  | none => simp
  | some rm =>
    cases hrt : rm.runtime with
    | none => simp [hrt]
    | some runtime => simp [hrt, Runtime.setProperty]

/-- C9, at concrete inputs: the fresh world rejects the registration and is
unchanged; the initialized world accepts it and gains the global
`__scanQRCodes`. -/
theorem registerPlugin_ordering_witness :
    registerPlugin freshWorld samplePlugin =
      ⟨[], .threw (.runtimeError
        "Tried to register plugin before initializing JS runtime! Call `initializeRuntime()` first."),
        freshWorld⟩ ∧
    ((registerPlugin initializedWorld samplePlugin).outcome = .returned () ∧
      ∃ runtime : Runtime,
        (registerPlugin initializedWorld samplePlugin).world.manager.initializedRuntime
          = some runtime ∧
        runtime.global ("__" ++ samplePlugin.name)
          = some (.hostFunction ("__" ++ samplePlugin.name) 1 (.pluginCallback samplePlugin))) :=
  ⟨(registerPlugin_ordering freshWorld samplePlugin).1 rfl,
    (registerPlugin_ordering initializedWorld samplePlugin).2 rfl⟩

end vision
